import Mathlib

/-!
Verification development for the charging state machine of the
MPPT-Charger_Software repository.

The repository ships the interface header `src/lib/ChargeController/ChargeController.h`
(the `ChargingProfile` struct, the `charger_states` enum and the
`ChargeController` class declaration).  The implementation file
`ChargeController.cpp` is not part of the source tree, so the behaviour of
`ChargeController::update`, the constructor, `enter_state` and the accessors
is modelled from the design specification (spec.md §3, §4), faithful to its
transition table and data-model descriptions.

Modelling conventions:
* voltages and currents (C++ `float`) are rationals `ℚ`;
* `int` profile fields stay integers `ℤ`;
* ticks are a monotonic `ℕ` counter `time` held in the controller state and
  incremented at the start of every `update` (spec §4: "all timers are
  expressed in elapsed ticks"; §9: "an explicit monotonic tick counter");
* consecutive-dwell timers are explicit tick counters that are incremented
  while their condition holds and reset to zero otherwise (spec §4:
  "`time_voltage_limit_reached` is reset to zero ... a *consecutive* dwell,
  not cumulative");
* the C++ accessors, which are member functions that may in principle touch
  the object, are modelled in state-passing style, returning the read value
  together with the (possibly modified) controller, so that freedom from
  side effects is a theorem rather than a modelling artefact.
-/

/-- The `charger_states` enum of `ChargeController.h` line 62. -/
inductive charger_states : Type
| CHG_IDLE
| CHG_CC
| CHG_CV
| CHG_TRICKLE
| CHG_EQUALIZATION
deriving DecidableEq

/-- The `ChargingProfile` struct of `ChargeController.h` lines 26-59.
Field names and order follow the header. -/
structure ChargingProfile : Type where
  num_cells : ℤ
  time_limit_recharge : ℤ
  cell_voltage_recharge : ℚ
  charge_current_max : ℚ
  cell_voltage_max : ℚ
  time_limit_CV : ℤ
  current_cutoff_CV : ℚ
  trickle_enabled : Bool
  cell_voltage_trickle : ℚ
  time_trickle_recharge : ℤ
  equalization_enabled : Bool
  cell_voltage_equalization : ℚ
  time_limit_equalization : ℤ
  current_limit_equalization : ℚ
  equalization_trigger_time : ℤ
  equalization_trigger_deep_cycles : ℤ
  cell_voltage_load_disconnect : ℚ
  cell_voltage_load_reconnect : ℚ
  temperature_compensation : ℚ

/-- Pack-level threshold: a per-cell limit multiplied by `num_cells`
(spec §4: "pack-level thresholds = per-cell threshold × num_cells"). -/
def pack_threshold (p : ChargingProfile) (cell_v : ℚ) : ℚ :=
  (p.num_cells : ℚ) * cell_v

/-- The §3 ordering invariant of the spec:
`cell_voltage_recharge < cell_voltage_trickle < cell_voltage_max ≤
cell_voltage_equalization` and `cell_voltage_load_disconnect <
cell_voltage_load_reconnect ≤ cell_voltage_recharge`, with `num_cells ≥ 1`. -/
def profile_ordering_invariant (p : ChargingProfile) : Prop :=
  1 ≤ p.num_cells ∧
  p.cell_voltage_recharge < p.cell_voltage_trickle ∧
  p.cell_voltage_trickle < p.cell_voltage_max ∧
  p.cell_voltage_max ≤ p.cell_voltage_equalization ∧
  p.cell_voltage_load_disconnect < p.cell_voltage_load_reconnect ∧
  p.cell_voltage_load_reconnect ≤ p.cell_voltage_recharge

/-- One second per tick (spec §4: "nominally 1 second"), so a week of
calendar time is 604800 ticks; used for the equalization trigger, whose
`equalization_trigger_time` is given in weeks (`ChargeController.h` line 51). -/
def seconds_per_week : ℕ := 604800

/-- The `ChargeController` state (`ChargeController.h` lines 123-130) with the
private member names of the header, extended by the bookkeeping the spec's
timers require: the monotonic tick counter `time` (spec §9), the
consecutive-ticks-below-recharge counter `_time_below_recharge` (spec §4 Idle
and Trickle rows: "stays below recharge threshold for ≥ ... consecutive
ticks"), the timestamp `_last_equalization` of the last completed
equalization and the accumulated deep-discharge cycle count
`_deep_cycle_count` (spec §4 Equalization row). -/
structure ChargeController : Type where
  _profile : ChargingProfile
  _state : charger_states
  time : ℕ
  _time_state_changed : ℕ
  _target_voltage : ℚ
  _target_current : ℚ
  _time_voltage_limit_reached : ℕ
  _time_below_recharge : ℕ
  _last_equalization : ℕ
  _deep_cycle_count : ℤ
  _charging_enabled : Bool
  _discharging_enabled : Bool

/-- Modelled from the spec: the constructor `ChargeController(profile)`
(spec §4.1 Construction: "Initializes state to Idle with zeroed outputs and
enable flags set to ... charging disabled, discharging enabled"; §3
Lifecycle: "phase = Idle, timestamps = 0, outputs = 0"). -/
def ChargeController.init (p : ChargingProfile) : ChargeController :=
  { _profile := p
    _state := charger_states.CHG_IDLE
    time := 0
    _time_state_changed := 0
    _target_voltage := 0
    _target_current := 0
    _time_voltage_limit_reached := 0
    _time_below_recharge := 0
    _last_equalization := 0
    _deep_cycle_count := 0
    _charging_enabled := false
    _discharging_enabled := true }

/-- Modelled from the spec: the private helper `enter_state(next_state)`
(spec §4.1: "sets phase, stamps time_phase_entered to the current tick
counter, resets time_voltage_limit_reached, and recomputes the phase's fixed
target voltage/current").  Per-phase targets follow the §4 transition table:
Idle has zero targets, ConstantCurrent and ConstantVoltage target the pack
absorption maximum voltage at `charge_current_max`, Trickle targets the pack
trickle voltage (current bounded by the same `charge_current_max` ceiling),
Equalization targets the pack equalization voltage at
`current_limit_equalization`. -/
def ChargeController.enter_state (c : ChargeController) (next_state : charger_states) : ChargeController :=
  let p := c._profile
  let targets : ℚ × ℚ :=
    match next_state with
    | charger_states.CHG_IDLE => (0, 0)
    | charger_states.CHG_CC => (pack_threshold p p.cell_voltage_max, p.charge_current_max)
    | charger_states.CHG_CV => (pack_threshold p p.cell_voltage_max, p.charge_current_max)
    | charger_states.CHG_TRICKLE => (pack_threshold p p.cell_voltage_trickle, p.charge_current_max)
    | charger_states.CHG_EQUALIZATION =>
        (pack_threshold p p.cell_voltage_equalization, p.current_limit_equalization)
  { c with
    _state := next_state
    _time_state_changed := c.time
    _time_voltage_limit_reached := 0
    _time_below_recharge := 0
    _target_voltage := targets.1
    _target_current := targets.2 }

/-- Modelled from the spec: the equalization trigger (spec §4 table,
Equalization entry condition: "`equalization_enabled` and (elapsed calendar
time since last equalization ≥ `equalization_trigger_time` weeks OR
accumulated deep-discharge cycle count ≥
`equalization_trigger_deep_cycles`)"), evaluated at tick `t`. -/
def ChargeController.equalization_due (c : ChargeController) (t : ℕ) : Bool :=
  c._profile.equalization_enabled &&
    (decide ((t : ℤ) - (c._last_equalization : ℤ) ≥
        c._profile.equalization_trigger_time * (seconds_per_week : ℤ)) ||
     decide (c._deep_cycle_count ≥ c._profile.equalization_trigger_deep_cycles))

/-- Modelled from the spec: the Idle row of the §4 transition table.
Exit condition: "battery_voltage stays below recharge threshold for
≥ `time_limit_recharge` consecutive ticks → enter ConstantCurrent".
The consecutive dwell is tracked by `_time_below_recharge`, incremented on a
tick below the pack recharge threshold and reset to zero otherwise. -/
def ChargeController.step_idle (c : ChargeController) (battery_voltage : ℚ) : ChargeController :=
  if battery_voltage < pack_threshold c._profile c._profile.cell_voltage_recharge then
    if ((c._time_below_recharge + 1 : ℕ) : ℤ) ≥ c._profile.time_limit_recharge then
      c.enter_state charger_states.CHG_CC
    else { c with _time_below_recharge := c._time_below_recharge + 1 }
  else { c with _time_below_recharge := 0 }

/-- Modelled from the spec: the ConstantCurrent row of the §4 transition
table.  Exit condition: "battery_voltage ≥ pack absorption max voltage →
enter ConstantVoltage" (§8: immediate, "no extra dwell required"). -/
def ChargeController.step_cc (c : ChargeController) (battery_voltage : ℚ) : ChargeController :=
  if battery_voltage ≥ pack_threshold c._profile c._profile.cell_voltage_max then
    c.enter_state charger_states.CHG_CV
  else c

/-- Modelled from the spec: the ConstantVoltage row of the §4 transition
table.  The cutoff condition of a tick is `battery_current ≤
current_cutoff_CV` while the battery voltage is at the absorption limit;
`_time_voltage_limit_reached` counts the consecutive ticks on which it holds
and is reset to zero on any tick where "current rises back above the cutoff"
or "voltage drops back under the absorption limit" (§3, §4, §8).  Exit when
the cutoff condition has held for ≥ `time_limit_CV` consecutive ticks, or
when the absolute dwell in the phase exceeds `time_limit_CV` as a hard
ceiling; the successor is Trickle if `trickle_enabled`, else Idle. -/
def ChargeController.step_cv (c : ChargeController) (battery_voltage battery_current : ℚ) : ChargeController :=
  if battery_current ≤ c._profile.current_cutoff_CV ∧
      battery_voltage ≥ pack_threshold c._profile c._profile.cell_voltage_max then
    if ((c._time_voltage_limit_reached + 1 : ℕ) : ℤ) ≥ c._profile.time_limit_CV ∨
        (c.time : ℤ) - (c._time_state_changed : ℤ) > c._profile.time_limit_CV then
      if c._profile.trickle_enabled then c.enter_state charger_states.CHG_TRICKLE
      else c.enter_state charger_states.CHG_IDLE
    else { c with _time_voltage_limit_reached := c._time_voltage_limit_reached + 1 }
  else
    if (c.time : ℤ) - (c._time_state_changed : ℤ) > c._profile.time_limit_CV then
      if c._profile.trickle_enabled then c.enter_state charger_states.CHG_TRICKLE
      else c.enter_state charger_states.CHG_IDLE
    else { c with _time_voltage_limit_reached := 0 }

/-- Modelled from the spec: the Trickle row of the §4 transition table, in the
table's order: "if battery_voltage falls below recharge threshold for
≥ `time_trickle_recharge` ticks → re-enter ConstantCurrent; if equalization
trigger fires → enter Equalization". -/
def ChargeController.step_trickle (c : ChargeController) (battery_voltage : ℚ) : ChargeController :=
  if battery_voltage < pack_threshold c._profile c._profile.cell_voltage_recharge then
    if ((c._time_below_recharge + 1 : ℕ) : ℤ) ≥ c._profile.time_trickle_recharge then
      c.enter_state charger_states.CHG_CC
    else if c.equalization_due c.time then
      c.enter_state charger_states.CHG_EQUALIZATION
    else { c with _time_below_recharge := c._time_below_recharge + 1 }
  else
    if c.equalization_due c.time then
      c.enter_state charger_states.CHG_EQUALIZATION
    else { c with _time_below_recharge := 0 }

/-- Modelled from the spec: the Equalization row of the §4 transition table.
Exit condition: "dwell ≥ `time_limit_equalization` ticks → return to Trickle
(or Idle if trickle disabled)"; completing the phase stamps
`_last_equalization` with the current tick so that the calendar-time trigger
measures "elapsed calendar time since last equalization". -/
def ChargeController.step_equalization (c : ChargeController) : ChargeController :=
  if (c.time : ℤ) - (c._time_state_changed : ℤ) ≥ c._profile.time_limit_equalization then
    if c._profile.trickle_enabled then
      ({ c with _last_equalization := c.time }).enter_state charger_states.CHG_TRICKLE
    else
      ({ c with _last_equalization := c.time }).enter_state charger_states.CHG_IDLE
  else c

/-- Modelled from the spec: the load-switch hysteresis of the enable-flag
policy (spec §4.1): the flag becomes false when the voltage is at or below
the pack load-disconnect threshold, true again once the voltage is at or
above the pack load-reconnect threshold, and is otherwise left unchanged. -/
def discharge_flag (p : ChargingProfile) (old : Bool) (battery_voltage : ℚ) : Bool :=
  if battery_voltage ≤ pack_threshold p p.cell_voltage_load_disconnect then false
  else if battery_voltage ≥ pack_threshold p p.cell_voltage_load_reconnect then true
  else old

/-- Modelled from the spec: the per-tick bookkeeping done by `update` before
the transition logic: advance the tick counter and apply the enable-flag
policy "evaluated every tick, independent of phase transition"
(`charging_enabled` is true in every phase, `discharging_enabled` follows
the load-switch hysteresis). -/
def ChargeController.tick (c : ChargeController) (battery_voltage : ℚ) : ChargeController :=
  { c with
    time := c.time + 1
    _charging_enabled := true
    _discharging_enabled := discharge_flag c._profile c._discharging_enabled battery_voltage }

/-- Modelled from the spec: `update(battery_voltage, battery_current)`
(spec §4.1), the only mutator, called once per tick.  It first performs the
per-tick bookkeeping (`tick`), then runs the phase-dependent transition
logic of the §4 table. -/
def ChargeController.update (c : ChargeController) (battery_voltage battery_current : ℚ) : ChargeController :=
  match c._state with
  | charger_states.CHG_IDLE => (c.tick battery_voltage).step_idle battery_voltage
  | charger_states.CHG_CC => (c.tick battery_voltage).step_cc battery_voltage
  | charger_states.CHG_CV => (c.tick battery_voltage).step_cv battery_voltage battery_current
  | charger_states.CHG_TRICKLE => (c.tick battery_voltage).step_trickle battery_voltage
  | charger_states.CHG_EQUALIZATION => (c.tick battery_voltage).step_equalization

/-- Modelled from the spec: the accessor `read_target_current()` (spec §4.1
Read accessors), in state-passing style: the returned pair carries the read
value and the controller as left behind by the call. -/
def ChargeController.read_target_current (c : ChargeController) : ℚ × ChargeController :=
  (c._target_current, c)

/-- Modelled from the spec: the accessor `read_target_voltage()`. -/
def ChargeController.read_target_voltage (c : ChargeController) : ℚ × ChargeController :=
  (c._target_voltage, c)

/-- Modelled from the spec: the accessor `charging_enabled()`. -/
def ChargeController.charging_enabled (c : ChargeController) : Bool × ChargeController :=
  (c._charging_enabled, c)

/-- Modelled from the spec: the accessor `discharging_enabled()`. -/
def ChargeController.discharging_enabled (c : ChargeController) : Bool × ChargeController :=
  (c._discharging_enabled, c)

/-- Modelled from the spec: the accessor `get_state()`. -/
def ChargeController.get_state (c : ChargeController) : charger_states × ChargeController :=
  (c._state, c)

/-- Running the controller over a list of `(battery_voltage, battery_current)`
measurement pairs, one `update` per tick. -/
def ChargeController.run (c : ChargeController) (inputs : List (ℚ × ℚ)) : ChargeController :=
  inputs.foldl (fun s x => s.update x.1 x.2) c

/-- A concrete test profile, the end-to-end scenario of spec §8: 2 cells,
recharge 2.05 V/cell for 5 ticks, bulk current 10 A, absorption 2.4 V/cell,
cutoff 0.5 A for 3 ticks; it satisfies the §3 ordering invariant. -/
def p_test : ChargingProfile :=
  { num_cells := 2
    time_limit_recharge := 5
    cell_voltage_recharge := 41/20
    charge_current_max := 10
    cell_voltage_max := 12/5
    time_limit_CV := 3
    current_cutoff_CV := 1/2
    trickle_enabled := true
    cell_voltage_trickle := 23/10
    time_trickle_recharge := 4
    equalization_enabled := true
    cell_voltage_equalization := 5/2
    time_limit_equalization := 10
    current_limit_equalization := 2
    equalization_trigger_time := 8
    equalization_trigger_deep_cycles := 100
    cell_voltage_load_disconnect := 9/5
    cell_voltage_load_reconnect := 2
    temperature_compensation := 0 }

/-- A variant of the test profile whose equalization calendar trigger is
zero weeks, so the calendar-time trigger condition is immediately due. -/
def p_eq : ChargingProfile :=
  { p_test with equalization_trigger_time := 0 }

section helper_lemmas

variable (c : ChargeController) (v i : ℚ) (s : charger_states)

/-- The per-tick bookkeeping leaves the phase unchanged. -/
theorem tick_state : (c.tick v)._state = c._state := rfl

/-- The per-tick bookkeeping leaves the profile unchanged. -/
theorem tick_profile : (c.tick v)._profile = c._profile := rfl

/-- Helper: `enter_state` leaves the profile unchanged. -/
theorem enter_state_profile : (c.enter_state s)._profile = c._profile := by
  cases s <;> rfl

/-- Helper: `enter_state` resets the consecutive-dwell counter of the CV cutoff. -/
theorem enter_state_tvlr : (c.enter_state s)._time_voltage_limit_reached = 0 := by
  cases s <;> rfl

/-- Helper: `enter_state` sets the phase it is given. -/
theorem enter_state_state : (c.enter_state s)._state = s := by
  cases s <;> rfl

/-- Unfolding `update` when the controller is in the Idle phase. -/
theorem update_of_idle (h : c._state = charger_states.CHG_IDLE) :
    c.update v i = (c.tick v).step_idle v := by
  unfold ChargeController.update
  rw [h]

/-- Unfolding `update` when the controller is in the ConstantCurrent phase. -/
theorem update_of_cc (h : c._state = charger_states.CHG_CC) :
    c.update v i = (c.tick v).step_cc v := by
  unfold ChargeController.update
  rw [h]

/-- Unfolding `update` when the controller is in the ConstantVoltage phase. -/
theorem update_of_cv (h : c._state = charger_states.CHG_CV) :
    c.update v i = (c.tick v).step_cv v i := by
  unfold ChargeController.update
  rw [h]

/-- Unfolding `update` when the controller is in the Trickle phase. -/
theorem update_of_trickle (h : c._state = charger_states.CHG_TRICKLE) :
    c.update v i = (c.tick v).step_trickle v := by
  unfold ChargeController.update
  rw [h]

/-- Unfolding `update` when the controller is in the Equalization phase. -/
theorem update_of_equalization (h : c._state = charger_states.CHG_EQUALIZATION) :
    c.update v i = (c.tick v).step_equalization := by
  unfold ChargeController.update
  rw [h]

/-- Helper: `enter_state` leaves the charging-enable flag unchanged. -/
theorem enter_state_chg : (c.enter_state s)._charging_enabled = c._charging_enabled := by
  cases s <;> rfl

/-- Helper: `step_idle` leaves the charging-enable flag unchanged. -/
theorem step_idle_chg : (c.step_idle v)._charging_enabled = c._charging_enabled := by
  unfold ChargeController.step_idle
  split_ifs <;> rfl

/-- Helper: `step_cc` leaves the charging-enable flag unchanged. -/
theorem step_cc_chg : (c.step_cc v)._charging_enabled = c._charging_enabled := by
  unfold ChargeController.step_cc
  split_ifs <;> rfl

/-- Helper: `step_cv` leaves the charging-enable flag unchanged. -/
theorem step_cv_chg : (c.step_cv v i)._charging_enabled = c._charging_enabled := by
  unfold ChargeController.step_cv
  split_ifs <;> rfl

/-- Helper: `step_trickle` leaves the charging-enable flag unchanged. -/
theorem step_trickle_chg : (c.step_trickle v)._charging_enabled = c._charging_enabled := by
  unfold ChargeController.step_trickle
  split_ifs <;> rfl

/-- Helper: `step_equalization` leaves the charging-enable flag unchanged. -/
theorem step_equalization_chg : (c.step_equalization)._charging_enabled = c._charging_enabled := by
  unfold ChargeController.step_equalization
  split_ifs <;> rfl

/-- Helper: `step_idle` leaves the profile unchanged. -/
theorem step_idle_profile : (c.step_idle v)._profile = c._profile := by
  unfold ChargeController.step_idle
  split_ifs <;> rfl

/-- Helper: `step_cc` leaves the profile unchanged. -/
theorem step_cc_profile : (c.step_cc v)._profile = c._profile := by
  unfold ChargeController.step_cc
  split_ifs <;> rfl

/-- Helper: `step_cv` leaves the profile unchanged. -/
theorem step_cv_profile : (c.step_cv v i)._profile = c._profile := by
  unfold ChargeController.step_cv
  split_ifs <;> rfl

/-- Helper: `step_trickle` leaves the profile unchanged. -/
theorem step_trickle_profile : (c.step_trickle v)._profile = c._profile := by
  unfold ChargeController.step_trickle
  split_ifs <;> rfl

/-- Helper: `step_equalization` leaves the profile unchanged. -/
theorem step_equalization_profile : (c.step_equalization)._profile = c._profile := by
  unfold ChargeController.step_equalization
  split_ifs <;> rfl

/-- Helper: `update` leaves the profile unchanged, whatever the phase. -/
theorem update_profile : (c.update v i)._profile = c._profile := by
  cases h : c._state
  case CHG_IDLE => rw [update_of_idle c v i h, step_idle_profile, tick_profile]
  case CHG_CC => rw [update_of_cc c v i h, step_cc_profile, tick_profile]
  case CHG_CV => rw [update_of_cv c v i h, step_cv_profile, tick_profile]
  case CHG_TRICKLE => rw [update_of_trickle c v i h, step_trickle_profile, tick_profile]
  case CHG_EQUALIZATION => rw [update_of_equalization c v i h, step_equalization_profile, tick_profile]

/-- The per-tick bookkeeping advances the tick counter by one. -/
theorem tick_time : (c.tick v).time = c.time + 1 := rfl

/-- The per-tick bookkeeping leaves the phase-entry timestamp unchanged. -/
theorem tick_tsc : (c.tick v)._time_state_changed = c._time_state_changed := rfl

/-- The per-tick bookkeeping leaves the CV dwell counter unchanged. -/
theorem tick_tvlr : (c.tick v)._time_voltage_limit_reached = c._time_voltage_limit_reached := rfl

/-- The per-tick bookkeeping leaves the below-recharge counter unchanged. -/
theorem tick_below : (c.tick v)._time_below_recharge = c._time_below_recharge := rfl

/-- The per-tick bookkeeping leaves the last-equalization stamp unchanged. -/
theorem tick_last_eq : (c.tick v)._last_equalization = c._last_equalization := rfl

/-- The per-tick bookkeeping leaves the deep-cycle count unchanged. -/
theorem tick_deep : (c.tick v)._deep_cycle_count = c._deep_cycle_count := rfl

/-- The per-tick bookkeeping computes the discharge flag by the hysteresis
policy. -/
theorem tick_dis : (c.tick v)._discharging_enabled =
    discharge_flag c._profile c._discharging_enabled v := rfl

/-- Helper: `enter_state` resets the below-recharge counter. -/
theorem enter_state_below : (c.enter_state s)._time_below_recharge = 0 := by
  cases s <;> rfl

/-- Helper: `enter_state` leaves the tick counter unchanged. -/
theorem enter_state_time : (c.enter_state s).time = c.time := by
  cases s <;> rfl

/-- Helper: `enter_state` stamps the phase-entry timestamp with the current tick. -/
theorem enter_state_tsc : (c.enter_state s)._time_state_changed = c.time := by
  cases s <;> rfl

/-- Helper: `enter_state` leaves the discharge flag unchanged. -/
theorem enter_state_dis : (c.enter_state s)._discharging_enabled = c._discharging_enabled := by
  cases s <;> rfl

/-- Helper: `step_idle` leaves the discharge flag unchanged. -/
theorem step_idle_dis : (c.step_idle v)._discharging_enabled = c._discharging_enabled := by
  unfold ChargeController.step_idle
  split_ifs <;> rfl

/-- Helper: `step_cc` leaves the discharge flag unchanged. -/
theorem step_cc_dis : (c.step_cc v)._discharging_enabled = c._discharging_enabled := by
  unfold ChargeController.step_cc
  split_ifs <;> rfl

/-- Helper: `step_cv` leaves the discharge flag unchanged. -/
theorem step_cv_dis : (c.step_cv v i)._discharging_enabled = c._discharging_enabled := by
  unfold ChargeController.step_cv
  split_ifs <;> rfl

/-- Helper: `step_trickle` leaves the discharge flag unchanged. -/
theorem step_trickle_dis : (c.step_trickle v)._discharging_enabled = c._discharging_enabled := by
  unfold ChargeController.step_trickle
  split_ifs <;> rfl

/-- Helper: `step_equalization` leaves the discharge flag unchanged. -/
theorem step_equalization_dis : (c.step_equalization)._discharging_enabled = c._discharging_enabled := by
  unfold ChargeController.step_equalization
  split_ifs <;> rfl

/-- After `update`, the discharge flag is exactly the hysteresis policy
applied to the old flag and this tick's voltage, whatever the phase. -/
theorem update_dis : (c.update v i)._discharging_enabled =
    discharge_flag c._profile c._discharging_enabled v := by
  cases h : c._state
  case CHG_IDLE => rw [update_of_idle c v i h, step_idle_dis, tick_dis]
  case CHG_CC => rw [update_of_cc c v i h, step_cc_dis, tick_dis]
  case CHG_CV => rw [update_of_cv c v i h, step_cv_dis, tick_dis]
  case CHG_TRICKLE => rw [update_of_trickle c v i h, step_trickle_dis, tick_dis]
  case CHG_EQUALIZATION => rw [update_of_equalization c v i h, step_equalization_dis, tick_dis]

end helper_lemmas

section run_lemmas

variable (c : ChargeController) (v i : ℚ)

/-- Running on no inputs is the identity. -/
theorem run_nil : c.run [] = c := rfl

/-- Running on a cons is an update followed by running the tail. -/
theorem run_cons (x : ℚ × ℚ) (xs : List (ℚ × ℚ)) :
    c.run (x :: xs) = (c.update x.1 x.2).run xs := rfl

/-- Under the §3 ordering invariant, the pack recharge threshold is at most
the pack absorption maximum voltage. -/
theorem pack_recharge_le_max (p : ChargingProfile) (hinv : profile_ordering_invariant p) :
    pack_threshold p p.cell_voltage_recharge ≤ pack_threshold p p.cell_voltage_max := by
  obtain ⟨h1, h2, h3, -, -, -⟩ := hinv
  have hc : (0 : ℚ) ≤ (p.num_cells : ℚ) := by
    have : (0 : ℤ) ≤ p.num_cells := le_trans (by norm_num) h1
    exact_mod_cast this
  exact mul_le_mul_of_nonneg_left (le_of_lt (h2.trans h3)) hc

/-- An Idle tick below the recharge threshold that does not yet complete the
dwell just increments the below-recharge counter. -/
theorem idle_step_advance (hc : c._state = charger_states.CHG_IDLE)
    (hv : v < pack_threshold c._profile c._profile.cell_voltage_recharge)
    (hlt : (c._time_below_recharge : ℤ) + 1 < c._profile.time_limit_recharge) :
    c.update v i = { c.tick v with _time_below_recharge := c._time_below_recharge + 1 } := by
  rw [update_of_idle c v i hc]
  unfold ChargeController.step_idle
  have hv' : v < pack_threshold (c.tick v)._profile (c.tick v)._profile.cell_voltage_recharge := hv
  rw [if_pos hv']
  have hno : ¬((((c.tick v)._time_below_recharge + 1 : ℕ) : ℤ) ≥
      (c.tick v)._profile.time_limit_recharge) := by
    simp only [tick_below, tick_profile]
    push_cast
    omega
  rw [if_neg hno]
  rfl

/-- An Idle tick below the recharge threshold that completes the dwell enters
ConstantCurrent. -/
theorem idle_step_fire (hc : c._state = charger_states.CHG_IDLE)
    (hv : v < pack_threshold c._profile c._profile.cell_voltage_recharge)
    (hge : (c._time_below_recharge : ℤ) + 1 ≥ c._profile.time_limit_recharge) :
    c.update v i = (c.tick v).enter_state charger_states.CHG_CC := by
  rw [update_of_idle c v i hc]
  unfold ChargeController.step_idle
  have hv' : v < pack_threshold (c.tick v)._profile (c.tick v)._profile.cell_voltage_recharge := hv
  rw [if_pos hv']
  have hyes : (((c.tick v)._time_below_recharge + 1 : ℕ) : ℤ) ≥
      (c.tick v)._profile.time_limit_recharge := by
    simp only [tick_below, tick_profile]
    push_cast
    omega
  rw [if_pos hyes]

/-- A ConstantCurrent tick below the pack absorption maximum leaves the phase
alone. -/
theorem cc_step_stay (hc : c._state = charger_states.CHG_CC)
    (hv : ¬(v ≥ pack_threshold c._profile c._profile.cell_voltage_max)) :
    c.update v i = c.tick v := by
  rw [update_of_cc c v i hc]
  unfold ChargeController.step_cc
  have hv' : ¬(v ≥ pack_threshold (c.tick v)._profile (c.tick v)._profile.cell_voltage_max) := hv
  rw [if_neg hv']

/-- Under the ordering invariant, a run whose voltages all stay below the
pack recharge threshold keeps a ConstantCurrent controller in
ConstantCurrent with its target current unchanged. -/
theorem cc_run_stay (inputs : List (ℚ × ℚ)) : ∀ c : ChargeController,
    c._state = charger_states.CHG_CC →
    profile_ordering_invariant c._profile →
    (∀ x ∈ inputs, x.1 < pack_threshold c._profile c._profile.cell_voltage_recharge) →
    (c.run inputs)._state = charger_states.CHG_CC ∧
    (c.run inputs)._target_current = c._target_current := by
  induction inputs with
  | nil => exact fun c hc _ _ => ⟨hc, rfl⟩
  | cons x xs ih =>
    intro c hc hinv hlow
    rw [run_cons]
    have hx := hlow x (List.mem_cons_self x xs)
    have hlt : x.1 < pack_threshold c._profile c._profile.cell_voltage_max :=
      lt_of_lt_of_le hx (pack_recharge_le_max c._profile hinv)
    rw [cc_step_stay c x.1 x.2 hc (not_le.mpr hlt)]
    have hres := ih (c.tick x.1) hc hinv (fun y hy => hlow y (List.mem_cons_of_mem x hy))
    exact ⟨hres.1, hres.2⟩

/-- Under the ordering invariant, an Idle controller fed enough consecutive
below-recharge ticks ends in ConstantCurrent with the bulk target current. -/
theorem idle_run_to_cc (inputs : List (ℚ × ℚ)) : ∀ c : ChargeController,
    c._state = charger_states.CHG_IDLE →
    profile_ordering_invariant c._profile →
    (∀ x ∈ inputs, x.1 < pack_threshold c._profile c._profile.cell_voltage_recharge) →
    (c._time_below_recharge : ℤ) + inputs.length ≥ c._profile.time_limit_recharge →
    inputs ≠ [] →
    (c.run inputs)._state = charger_states.CHG_CC ∧
    (c.run inputs)._target_current = c._profile.charge_current_max := by
  induction inputs with
  | nil => exact fun c _ _ _ _ hne => absurd rfl hne
  | cons x xs ih =>
    intro c hc hinv hlow hlen _
    rw [run_cons]
    by_cases hfire : (c._time_below_recharge : ℤ) + 1 ≥ c._profile.time_limit_recharge
    · rw [idle_step_fire c x.1 x.2 hc (hlow x (List.mem_cons_self x xs)) hfire]
      have hcc := cc_run_stay xs ((c.tick x.1).enter_state charger_states.CHG_CC)
        (enter_state_state _ _) hinv (fun y hy => hlow y (List.mem_cons_of_mem x hy))
      exact ⟨hcc.1, hcc.2⟩
    · push_neg at hfire
      rw [idle_step_advance c x.1 x.2 hc (hlow x (List.mem_cons_self x xs)) hfire]
      cases xs with
      | nil =>
        exfalso
        simp only [List.length_cons, List.length_nil] at hlen
        push_cast at hlen
        omega
      | cons y ys =>
        have hres := ih { c.tick x.1 with _time_below_recharge := c._time_below_recharge + 1 }
          hc hinv (fun z hz => hlow z (List.mem_cons_of_mem x hz))
          (by
            simp only [List.length_cons, tick_profile] at hlen ⊢
            push_cast at hlen ⊢
            omega)
          (by simp)
        exact ⟨hres.1, hres.2⟩

end run_lemmas


/-- Claim C6: immediately after construction from a charging profile and
before the first `update`, the phase is Idle, all timestamps are 0, the
target voltage and current are 0, `charging_enabled()` returns false and
`discharging_enabled()` returns true. -/
theorem C6_initial_state (p : ChargingProfile) :
    (ChargeController.init p)._state = charger_states.CHG_IDLE ∧
    (ChargeController.init p).time = 0 ∧
    (ChargeController.init p)._time_state_changed = 0 ∧
    (ChargeController.init p)._time_voltage_limit_reached = 0 ∧
    (ChargeController.init p)._time_below_recharge = 0 ∧
    (ChargeController.init p)._last_equalization = 0 ∧
    (ChargeController.init p)._target_voltage = 0 ∧
    (ChargeController.init p)._target_current = 0 ∧
    ((ChargeController.init p).charging_enabled).1 = false ∧
    ((ChargeController.init p).discharging_enabled).1 = true := by
  refine ⟨rfl, rfl, rfl, rfl, rfl, rfl, rfl, rfl, rfl, rfl⟩

/-- Claim C8: after every call to `update`, `charging_enabled()` returns
true, regardless of the phase and of the measurement inputs. -/
theorem C8_charging_always_enabled (c : ChargeController) (v i : ℚ) :
    ((c.update v i).charging_enabled).1 = true := by
  show (c.update v i)._charging_enabled = true
  cases h : c._state
  case CHG_IDLE => rw [update_of_idle c v i h, step_idle_chg]; rfl
  case CHG_CC => rw [update_of_cc c v i h, step_cc_chg]; rfl
  case CHG_CV => rw [update_of_cv c v i h, step_cv_chg]; rfl
  case CHG_TRICKLE => rw [update_of_trickle c v i h, step_trickle_chg]; rfl
  case CHG_EQUALIZATION => rw [update_of_equalization c v i h, step_equalization_chg]; rfl

/-- Claim C3: in the ConstantCurrent phase, a single `update` with
battery_voltage at or above the pack absorption maximum voltage
(`cell_voltage_max × num_cells`) transitions immediately to
ConstantVoltage. -/
theorem C3_cc_to_cv_immediate (c : ChargeController) (v i : ℚ)
    (hc : c._state = charger_states.CHG_CC)
    (hv : v ≥ pack_threshold c._profile c._profile.cell_voltage_max) :
    (c.update v i)._state = charger_states.CHG_CV := by
  rw [update_of_cc c v i hc]
  unfold ChargeController.step_cc
  have hv' : v ≥ pack_threshold (c.tick v)._profile (c.tick v)._profile.cell_voltage_max := hv
  rw [if_pos hv']
  exact enter_state_state _ _

/-- Concrete witness for C3: the test profile in ConstantCurrent, fed 5 V
(above the 4.8 V pack absorption maximum), moves to ConstantVoltage. -/
theorem C3_witness :
    (((ChargeController.init p_test).enter_state charger_states.CHG_CC).update 5 0)._state =
      charger_states.CHG_CV :=
  C3_cc_to_cv_immediate _ 5 0 (enter_state_state _ _)
    (by show (5 : ℚ) ≥ pack_threshold p_test p_test.cell_voltage_max
        norm_num [pack_threshold, p_test])

/-- Claim C4: during ConstantVoltage the cutoff dwell counter
`_time_voltage_limit_reached` is consecutive, not cumulative: any tick on
which the cutoff condition fails (the current rises back above
`current_cutoff_CV`, or the voltage drops back under the pack absorption
limit) resets it to zero, and it is also reset on every phase entry via
`enter_state`. -/
theorem C4_cv_dwell_reset (c : ChargeController) (v i : ℚ) (s : charger_states) :
    (c._state = charger_states.CHG_CV →
      (i > c._profile.current_cutoff_CV ∨
        v < pack_threshold c._profile c._profile.cell_voltage_max) →
      (c.update v i)._time_voltage_limit_reached = 0) ∧
    (c.enter_state s)._time_voltage_limit_reached = 0 := by
  constructor
  · intro hc hcond
    rw [update_of_cv c v i hc]
    unfold ChargeController.step_cv
    have hneg : ¬(i ≤ (c.tick v)._profile.current_cutoff_CV ∧
        v ≥ pack_threshold (c.tick v)._profile (c.tick v)._profile.cell_voltage_max) := by
      rw [tick_profile]
      rcases hcond with h | h
      · exact fun hand => absurd hand.1 (not_le.mpr h)
      · exact fun hand => absurd hand.2 (not_le.mpr h)
    rw [if_neg hneg]
    split_ifs
    · exact enter_state_tvlr _ _
    · exact enter_state_tvlr _ _
    · rfl
  · exact enter_state_tvlr _ _

/-- Concrete witness for C4: in ConstantVoltage with the test profile, a tick
whose current 1 A exceeds the 0.5 A cutoff leaves the dwell counter at zero,
and `enter_state` leaves it at zero. -/
theorem C4_witness :
    (((ChargeController.init p_test).enter_state charger_states.CHG_CV).update 5 1)._time_voltage_limit_reached = 0 ∧
    ((ChargeController.init p_test).enter_state charger_states.CHG_IDLE)._time_voltage_limit_reached = 0 :=
  ⟨(C4_cv_dwell_reset _ 5 1 charger_states.CHG_IDLE).1 (enter_state_state _ _)
      (Or.inl (by show (1 : ℚ) > p_test.current_cutoff_CV
                  norm_num [p_test])),
    (C4_cv_dwell_reset ((ChargeController.init p_test)) 5 1 charger_states.CHG_IDLE).2⟩

/-- Claim C9: the read accessors `read_target_current`, `read_target_voltage`,
`charging_enabled`, `discharging_enabled` and `get_state` are pure reads:
each leaves the controller unchanged, calling one twice returns the same
value both times, and each returns the field of the state produced by the
most recent `update`. -/
theorem C9_accessors_pure (c : ChargeController) (v i : ℚ) :
    (c.read_target_current).2 = c ∧
    (c.read_target_voltage).2 = c ∧
    (c.charging_enabled).2 = c ∧
    (c.discharging_enabled).2 = c ∧
    (c.get_state).2 = c ∧
    (((c.read_target_current).2).read_target_current).1 = (c.read_target_current).1 ∧
    (((c.read_target_voltage).2).read_target_voltage).1 = (c.read_target_voltage).1 ∧
    (((c.charging_enabled).2).charging_enabled).1 = (c.charging_enabled).1 ∧
    (((c.discharging_enabled).2).discharging_enabled).1 = (c.discharging_enabled).1 ∧
    (((c.get_state).2).get_state).1 = (c.get_state).1 ∧
    ((c.update v i).read_target_current).1 = (c.update v i)._target_current ∧
    ((c.update v i).read_target_voltage).1 = (c.update v i)._target_voltage ∧
    ((c.update v i).charging_enabled).1 = (c.update v i)._charging_enabled ∧
    ((c.update v i).discharging_enabled).1 = (c.update v i)._discharging_enabled ∧
    ((c.update v i).get_state).1 = (c.update v i)._state :=
  ⟨rfl, rfl, rfl, rfl, rfl, rfl, rfl, rfl, rfl, rfl, rfl, rfl, rfl, rfl, rfl⟩

/-- Claim C10: no operation of the controller — construction, `update`,
`enter_state` or any read accessor — modifies the charging profile. -/
theorem C10_profile_immutable (p : ChargingProfile) (c : ChargeController)
    (v i : ℚ) (s : charger_states) :
    (ChargeController.init p)._profile = p ∧
    (c.update v i)._profile = c._profile ∧
    (c.enter_state s)._profile = c._profile ∧
    ((c.read_target_current).2)._profile = c._profile ∧
    ((c.read_target_voltage).2)._profile = c._profile ∧
    ((c.charging_enabled).2)._profile = c._profile ∧
    ((c.discharging_enabled).2)._profile = c._profile ∧
    ((c.get_state).2)._profile = c._profile :=
  ⟨rfl, update_profile c v i, enter_state_profile c s, rfl, rfl, rfl, rfl, rfl⟩

/-- A ConstantVoltage tick whose cutoff condition holds but whose consecutive
dwell has not yet reached `time_limit_CV` (counting from phase entry) just
increments the dwell counter. -/
theorem cv_step_stay (c : ChargeController) (v i : ℚ)
    (hc : c._state = charger_states.CHG_CV)
    (hcut : i ≤ c._profile.current_cutoff_CV)
    (hvolt : v ≥ pack_threshold c._profile c._profile.cell_voltage_max)
    (htime : c.time = c._time_state_changed + c._time_voltage_limit_reached)
    (hlt : (c._time_voltage_limit_reached : ℤ) + 1 < c._profile.time_limit_CV) :
    c.update v i = { c.tick v with
      _time_voltage_limit_reached := c._time_voltage_limit_reached + 1 } := by
  rw [update_of_cv c v i hc]
  unfold ChargeController.step_cv
  have hcond : i ≤ (c.tick v)._profile.current_cutoff_CV ∧
      v ≥ pack_threshold (c.tick v)._profile (c.tick v)._profile.cell_voltage_max :=
    ⟨hcut, hvolt⟩
  rw [if_pos hcond]
  have hno : ¬((((c.tick v)._time_voltage_limit_reached + 1 : ℕ) : ℤ) ≥
        (c.tick v)._profile.time_limit_CV ∨
      ((c.tick v).time : ℤ) - ((c.tick v)._time_state_changed : ℤ) >
        (c.tick v)._profile.time_limit_CV) := by
    simp only [tick_tvlr, tick_profile, tick_time, tick_tsc]
    push_cast
    omega
  rw [if_neg hno]
  rfl

/-- A ConstantVoltage tick whose cutoff condition holds and completes the
`time_limit_CV` consecutive dwell exits to Trickle if enabled, else Idle. -/
theorem cv_step_exit (c : ChargeController) (v i : ℚ)
    (hc : c._state = charger_states.CHG_CV)
    (hcut : i ≤ c._profile.current_cutoff_CV)
    (hvolt : v ≥ pack_threshold c._profile c._profile.cell_voltage_max)
    (hge : (c._time_voltage_limit_reached : ℤ) + 1 ≥ c._profile.time_limit_CV) :
    (c.update v i)._state =
      (if c._profile.trickle_enabled = true then charger_states.CHG_TRICKLE
       else charger_states.CHG_IDLE) := by
  rw [update_of_cv c v i hc]
  unfold ChargeController.step_cv
  have hcond : i ≤ (c.tick v)._profile.current_cutoff_CV ∧
      v ≥ pack_threshold (c.tick v)._profile (c.tick v)._profile.cell_voltage_max :=
    ⟨hcut, hvolt⟩
  rw [if_pos hcond]
  have hyes : (((c.tick v)._time_voltage_limit_reached + 1 : ℕ) : ℤ) ≥
        (c.tick v)._profile.time_limit_CV ∨
      ((c.tick v).time : ℤ) - ((c.tick v)._time_state_changed : ℤ) >
        (c.tick v)._profile.time_limit_CV := by
    simp only [tick_tvlr, tick_profile, tick_time, tick_tsc]
    left
    push_cast
    omega
  rw [if_pos hyes]
  have ht : (c.tick v)._profile.trickle_enabled = c._profile.trickle_enabled := rfl
  rw [ht]
  split_ifs with h <;> exact enter_state_state _ _

/-- A run of cutoff-condition ticks too short to complete the dwell keeps a
just-entered ConstantVoltage controller in ConstantVoltage, accumulating the
dwell counter one per tick. -/
theorem cv_run_stay (inputs : List (ℚ × ℚ)) : ∀ c : ChargeController,
    c._state = charger_states.CHG_CV →
    c.time = c._time_state_changed + c._time_voltage_limit_reached →
    (∀ x ∈ inputs, x.2 ≤ c._profile.current_cutoff_CV ∧
      x.1 ≥ pack_threshold c._profile c._profile.cell_voltage_max) →
    ((c._time_voltage_limit_reached : ℤ) + inputs.length < c._profile.time_limit_CV) →
    (c.run inputs)._state = charger_states.CHG_CV ∧
    (c.run inputs)._time_voltage_limit_reached = c._time_voltage_limit_reached + inputs.length ∧
    (c.run inputs).time = (c.run inputs)._time_state_changed +
      (c.run inputs)._time_voltage_limit_reached ∧
    (c.run inputs)._profile = c._profile := by
  induction inputs with
  | nil =>
    intro c h1 h2 _ _
    exact ⟨h1, by simp [run_nil], h2, rfl⟩
  | cons x xs ih =>
    intro c h1 h2 h3 h4
    rw [run_cons]
    have hx := h3 x (List.mem_cons_self x xs)
    have hstep := cv_step_stay c x.1 x.2 h1 hx.1 hx.2 h2
      (by simp only [List.length_cons] at h4; push_cast at h4; omega)
    rw [hstep]
    have hres := ih { c.tick x.1 with
        _time_voltage_limit_reached := c._time_voltage_limit_reached + 1 }
      h1
      (by show c.time + 1 = c._time_state_changed + (c._time_voltage_limit_reached + 1); omega)
      (fun y hy => h3 y (List.mem_cons_of_mem x hy))
      (by
        show ((c._time_voltage_limit_reached + 1 : ℕ) : ℤ) + (xs.length : ℤ) <
          c._profile.time_limit_CV
        simp only [List.length_cons] at h4
        push_cast at h4 ⊢
        omega)
    refine ⟨hres.1, ?_, hres.2.2.1, ?_⟩
    · rw [hres.2.1]
      show c._time_voltage_limit_reached + 1 + xs.length =
        c._time_voltage_limit_reached + (x :: xs).length
      simp only [List.length_cons]
      omega
    · rw [hres.2.2.2]
      rfl


/-- A run of ConstantVoltage ticks on which the cutoff condition fails and
the absolute-dwell ceiling is not yet exceeded keeps the controller in
ConstantVoltage. -/
theorem cv_run_low (inputs : List (ℚ × ℚ)) : ∀ c : ChargeController,
    c._state = charger_states.CHG_CV →
    (∀ x ∈ inputs, ¬(x.2 ≤ c._profile.current_cutoff_CV ∧
      x.1 ≥ pack_threshold c._profile c._profile.cell_voltage_max)) →
    ((c.time : ℤ) + inputs.length - (c._time_state_changed : ℤ) ≤ c._profile.time_limit_CV) →
    (c.run inputs)._state = charger_states.CHG_CV := by
  induction inputs with
  | nil => exact fun c h1 _ _ => h1
  | cons x xs ih =>
    intro c h1 h2 h3
    rw [run_cons]
    have hx := h2 x (List.mem_cons_self x xs)
    have hstep : c.update x.1 x.2 = { c.tick x.1 with _time_voltage_limit_reached := 0 } := by
      rw [update_of_cv c x.1 x.2 h1]
      unfold ChargeController.step_cv
      have hx' : ¬(x.2 ≤ (c.tick x.1)._profile.current_cutoff_CV ∧
          x.1 ≥ pack_threshold (c.tick x.1)._profile (c.tick x.1)._profile.cell_voltage_max) := hx
      rw [if_neg hx']
      have hceil : ¬(((c.tick x.1).time : ℤ) - ((c.tick x.1)._time_state_changed : ℤ) >
          (c.tick x.1)._profile.time_limit_CV) := by
        simp only [tick_time, tick_tsc, tick_profile]
        simp only [List.length_cons] at h3
        push_cast at h3 ⊢
        omega
      rw [if_neg hceil]
    rw [hstep]
    exact ih { c.tick x.1 with _time_voltage_limit_reached := 0 } h1
      (fun y hy => h2 y (List.mem_cons_of_mem x hy))
      (by
        show ((c.time + 1 : ℕ) : ℤ) + (xs.length : ℤ) - (c._time_state_changed : ℤ) ≤
          c._profile.time_limit_CV
        simp only [List.length_cons] at h3
        push_cast at h3 ⊢
        omega)

/-- Claim C1: for a profile satisfying the §3 ordering invariant, an Idle
controller fed battery voltages below the pack recharge threshold
(`cell_voltage_recharge × num_cells`) on at least `time_limit_recharge`
consecutive ticks ends in ConstantCurrent, and `read_target_current()` then
returns `charge_current_max`. -/
theorem C1_idle_recharge_to_cc (c : ChargeController) (inputs : List (ℚ × ℚ))
    (hinv : profile_ordering_invariant c._profile)
    (hc : c._state = charger_states.CHG_IDLE)
    (hlow : ∀ x ∈ inputs, x.1 < pack_threshold c._profile c._profile.cell_voltage_recharge)
    (hlen : (inputs.length : ℤ) ≥ c._profile.time_limit_recharge)
    (hne : inputs ≠ []) :
    (c.run inputs)._state = charger_states.CHG_CC ∧
    ((c.run inputs).read_target_current).1 = c._profile.charge_current_max := by
  have h := idle_run_to_cc inputs c hc hinv hlow (by omega) hne
  exact ⟨h.1, h.2⟩

/-- Concrete witness for C1: the test profile (recharge dwell 5 ticks), fed
4 V (below the 4.1 V pack recharge threshold) for 5 ticks from Idle, ends in
ConstantCurrent with target current 10 A. -/
theorem C1_witness :
    ((ChargeController.init p_test).run (List.replicate 5 ((4 : ℚ), (0 : ℚ))))._state =
      charger_states.CHG_CC ∧
    (((ChargeController.init p_test).run (List.replicate 5 ((4 : ℚ), (0 : ℚ)))).read_target_current).1 =
      p_test.charge_current_max :=
  C1_idle_recharge_to_cc _ _
    (by
      show profile_ordering_invariant p_test
      exact ⟨by norm_num [p_test], by norm_num [p_test], by norm_num [p_test],
        by norm_num [p_test], by norm_num [p_test], by norm_num [p_test]⟩)
    rfl
    (by
      intro x hx
      rw [List.eq_of_mem_replicate hx]
      show (4 : ℚ) < pack_threshold p_test p_test.cell_voltage_recharge
      norm_num [pack_threshold, p_test])
    (by
      show ((List.replicate 5 ((4 : ℚ), (0 : ℚ))).length : ℤ) ≥ p_test.time_limit_recharge
      simp [p_test])
    (by simp)

/-- Counterexample to claim C2 as stated: with the test profile
(`time_limit_CV = 3`, trickle enabled), a just-entered ConstantVoltage
controller fed current 0 A (at or below the 0.5 A cutoff) on 3 consecutive
ticks — but with battery voltage 0 V, below the pack absorption maximum —
does NOT transition on the third tick: it is still in ConstantVoltage, not
in Trickle as the claim predicts. -/
theorem C2_counterexample :
    p_test.time_limit_CV = 3 ∧
    ((0 : ℚ) ≤ p_test.current_cutoff_CV) ∧
    p_test.trickle_enabled = true ∧
    ((((ChargeController.init p_test).enter_state charger_states.CHG_CV).run
        (List.replicate 3 ((0 : ℚ), (0 : ℚ))))._state = charger_states.CHG_CV) := by
  refine ⟨rfl, by norm_num [p_test], rfl, ?_⟩
  apply cv_run_low
  · exact enter_state_state _ _
  · intro x hx
    rw [List.eq_of_mem_replicate hx]
    intro hand
    have hv : (0 : ℚ) ≥ pack_threshold p_test p_test.cell_voltage_max := hand.2
    revert hv
    norm_num [pack_threshold, p_test]
  · show (((ChargeController.init p_test).enter_state charger_states.CHG_CV).time : ℤ) +
      ((List.replicate 3 ((0 : ℚ), (0 : ℚ))).length : ℤ) -
      (((ChargeController.init p_test).enter_state charger_states.CHG_CV)._time_state_changed : ℤ) ≤
      p_test.time_limit_CV
    norm_num [ChargeController.enter_state, ChargeController.init, p_test]

/-- Claim C2 as amended: while the battery voltage stays at or above the pack
absorption maximum (so that the cutoff condition of the CV dwell holds), a
just-entered ConstantVoltage controller with battery current at or below
`current_cutoff_CV` for exactly `time_limit_CV − 1` consecutive ticks does
not leave ConstantVoltage, and on the `time_limit_CV`-th consecutive such
tick it transitions, to Trickle if `trickle_enabled` and to Idle
otherwise. -/
theorem C2_cv_cutoff_boundary (c : ChargeController) (inputs : List (ℚ × ℚ)) (v i : ℚ)
    (hcond : ∀ x ∈ inputs, x.2 ≤ c._profile.current_cutoff_CV ∧
      x.1 ≥ pack_threshold c._profile c._profile.cell_voltage_max)
    (hlen : (inputs.length : ℤ) = c._profile.time_limit_CV - 1)
    (hvi : i ≤ c._profile.current_cutoff_CV)
    (hvv : v ≥ pack_threshold c._profile c._profile.cell_voltage_max) :
    (∀ k ≤ inputs.length,
      ((c.enter_state charger_states.CHG_CV).run (inputs.take k))._state =
        charger_states.CHG_CV) ∧
    ((((c.enter_state charger_states.CHG_CV).run inputs).update v i)._state =
      (if c._profile.trickle_enabled = true then charger_states.CHG_TRICKLE
       else charger_states.CHG_IDLE)) := by
  have hstate : (c.enter_state charger_states.CHG_CV)._state = charger_states.CHG_CV :=
    enter_state_state _ _
  have htime0 : (c.enter_state charger_states.CHG_CV).time =
      (c.enter_state charger_states.CHG_CV)._time_state_changed +
      (c.enter_state charger_states.CHG_CV)._time_voltage_limit_reached := by
    rw [enter_state_time, enter_state_tsc, enter_state_tvlr]
    rfl
  constructor
  · intro k hk
    have h := cv_run_stay (inputs.take k) (c.enter_state charger_states.CHG_CV) hstate htime0
      (fun x hx => hcond x (List.take_subset k inputs hx))
      (by
        show (((c.enter_state charger_states.CHG_CV)._time_voltage_limit_reached : ℕ) : ℤ) +
          ((inputs.take k).length : ℤ) <
          (c.enter_state charger_states.CHG_CV)._profile.time_limit_CV
        rw [enter_state_tvlr, enter_state_profile, List.length_take]
        push_cast
        omega)
    exact h.1
  · obtain ⟨r1, r2, r3, r4⟩ := cv_run_stay inputs (c.enter_state charger_states.CHG_CV)
      hstate htime0 hcond
      (by
        show (((c.enter_state charger_states.CHG_CV)._time_voltage_limit_reached : ℕ) : ℤ) +
          (inputs.length : ℤ) < (c.enter_state charger_states.CHG_CV)._profile.time_limit_CV
        rw [enter_state_tvlr, enter_state_profile]
        push_cast
        omega)
    have r4' : ((c.enter_state charger_states.CHG_CV).run inputs)._profile = c._profile := by
      rw [r4, enter_state_profile]
    have hexit := cv_step_exit ((c.enter_state charger_states.CHG_CV).run inputs) v i r1
      (by rw [r4']; exact hvi) (by rw [r4']; exact hvv)
      (by rw [r4', r2, enter_state_tvlr]; push_cast; omega)
    rw [hexit, r4']

/-- Concrete witness for the amended C2: the test profile (`time_limit_CV`
= 3, trickle enabled), just entered ConstantVoltage, fed 5 V / 0 A for 2 =
3 − 1 ticks, then one more such tick: the third tick transitions (to
Trickle, since trickle is enabled). -/
theorem C2_witness :
    ((((ChargeController.init p_test).enter_state charger_states.CHG_CV).run
        (List.replicate 2 ((5 : ℚ), (0 : ℚ)))).update 5 0)._state =
      (if p_test.trickle_enabled = true then charger_states.CHG_TRICKLE
       else charger_states.CHG_IDLE) :=
  (C2_cv_cutoff_boundary (ChargeController.init p_test) (List.replicate 2 ((5 : ℚ), (0 : ℚ))) 5 0
    (by
      intro x hx
      rw [List.eq_of_mem_replicate hx]
      constructor
      · show (0 : ℚ) ≤ p_test.current_cutoff_CV
        norm_num [p_test]
      · show (5 : ℚ) ≥ pack_threshold p_test p_test.cell_voltage_max
        norm_num [pack_threshold, p_test])
    (by
      show ((List.replicate 2 ((5 : ℚ), (0 : ℚ))).length : ℤ) = p_test.time_limit_CV - 1
      simp [p_test])
    (by
      show (0 : ℚ) ≤ p_test.current_cutoff_CV
      norm_num [p_test])
    (by
      show (5 : ℚ) ≥ pack_threshold p_test p_test.cell_voltage_max
      norm_num [pack_threshold, p_test])).2

/-- Claim C5: the load-switch hysteresis.  After any `update`, if the tick's
voltage was at or below the pack load-disconnect threshold then
`discharging_enabled()` is false; and a controller whose discharge flag is
false only flips it to true on a tick whose voltage is at or above the pack
load-reconnect threshold — never at the disconnect threshold. -/
theorem C5_discharge_hysteresis (c : ChargeController) (v i : ℚ) :
    (v ≤ pack_threshold c._profile c._profile.cell_voltage_load_disconnect →
      ((c.update v i).discharging_enabled).1 = false) ∧
    (c._discharging_enabled = false →
      ((c.update v i).discharging_enabled).1 = true →
      v ≥ pack_threshold c._profile c._profile.cell_voltage_load_reconnect) := by
  constructor
  · intro hle
    show (c.update v i)._discharging_enabled = false
    rw [update_dis]
    unfold discharge_flag
    rw [if_pos hle]
  · intro hfalse htrue
    have h2 : discharge_flag c._profile c._discharging_enabled v = true := by
      rw [← update_dis c v i]
      exact htrue
    unfold discharge_flag at h2
    split_ifs at h2 with h3 h4 <;> simp_all

/-- Concrete witness for C5: with the test profile (disconnect 3.6 V,
reconnect 4.0 V), a 3 V tick disables discharging, and a controller whose
discharge flag is off that re-enables it on a 5 V tick did see a voltage at
or above the 4.0 V reconnect threshold. -/
theorem C5_witness :
    (((ChargeController.init p_test).update 3 0).discharging_enabled).1 = false ∧
    (5 : ℚ) ≥ pack_threshold p_test p_test.cell_voltage_load_reconnect := by
  constructor
  · exact (C5_discharge_hysteresis (ChargeController.init p_test) 3 0).1
      (by
        show (3 : ℚ) ≤ pack_threshold p_test p_test.cell_voltage_load_disconnect
        norm_num [pack_threshold, p_test])
  · exact (C5_discharge_hysteresis
      { ChargeController.init p_test with _discharging_enabled := false } 5 0).2
      rfl
      (by
        show (({ ChargeController.init p_test with
          _discharging_enabled := false } : ChargeController).update 5 0)._discharging_enabled = true
        rw [update_dis]
        show discharge_flag p_test false 5 = true
        unfold discharge_flag
        rw [if_neg (by norm_num [pack_threshold, p_test]),
          if_pos (by norm_num [pack_threshold, p_test])])

/-- Claim C7: in the Trickle phase with `equalization_enabled` and the
elapsed calendar time since the last equalization at least
`equalization_trigger_time` weeks at this tick, an `update` on which the
trickle recharge exit does not fire (voltage at or above the pack recharge
threshold) transitions to Equalization, and `read_target_voltage()` then
returns the pack equalization voltage
(`cell_voltage_equalization × num_cells`). -/
theorem C7_trickle_to_equalization (c : ChargeController) (v i : ℚ)
    (hc : c._state = charger_states.CHG_TRICKLE)
    (henable : c._profile.equalization_enabled = true)
    (htime : ((c.time + 1 : ℕ) : ℤ) - (c._last_equalization : ℤ) ≥
      c._profile.equalization_trigger_time * (seconds_per_week : ℤ))
    (hv : v ≥ pack_threshold c._profile c._profile.cell_voltage_recharge) :
    (c.update v i)._state = charger_states.CHG_EQUALIZATION ∧
    ((c.update v i).read_target_voltage).1 =
      pack_threshold c._profile c._profile.cell_voltage_equalization := by
  rw [update_of_trickle c v i hc]
  unfold ChargeController.step_trickle
  have hnb : ¬(v < pack_threshold (c.tick v)._profile (c.tick v)._profile.cell_voltage_recharge) :=
    not_lt.mpr hv
  rw [if_neg hnb]
  have hdue : (c.tick v).equalization_due (c.tick v).time = true := by
    unfold ChargeController.equalization_due
    simp only [tick_profile, tick_time, tick_last_eq, tick_deep]
    rw [henable]
    simp only [Bool.true_and, Bool.or_eq_true, decide_eq_true_eq]
    exact Or.inl htime
  rw [if_pos hdue]
  exact ⟨enter_state_state _ _, rfl⟩

/-- Concrete witness for C7: the zero-week-trigger profile in Trickle, fed
5 V (above the pack recharge threshold), moves to Equalization with target
voltage 5 V (2 cells × 2.5 V). -/
theorem C7_witness :
    ((((ChargeController.init p_eq).enter_state charger_states.CHG_TRICKLE).update 5 0)._state =
      charger_states.CHG_EQUALIZATION) ∧
    ((((ChargeController.init p_eq).enter_state charger_states.CHG_TRICKLE).update 5 0).read_target_voltage).1 =
      pack_threshold p_eq p_eq.cell_voltage_equalization :=
  C7_trickle_to_equalization _ 5 0 (enter_state_state _ _) rfl
    (by
      show (((0 : ℕ) + 1 : ℕ) : ℤ) - ((0 : ℕ) : ℤ) ≥ (0 : ℤ) * (seconds_per_week : ℤ)
      simp)
    (by
      show (5 : ℚ) ≥ pack_threshold p_eq p_eq.cell_voltage_recharge
      norm_num [pack_threshold, p_eq, p_test])
